import Mathlib

/-!
Verification of the RFM95 LoRa driver (`src/rfm95/src/rfm95/driver.rs`).

The driver talks to the radio through a register connection that performs one
register read or write per call. We model the hardware register file as a
record `RegState` with one field per register sub-field used by the driver
(the connection exposes bit-fields of the 8-bit hardware registers as
individual registers, so each sub-field is modelled as its own cell, masked
to its hardware width on read). Driver operations are shallowly embedded as
state transformers `M α = RegState → Except Err α × RegState × WriteLog`
that also record the list of register writes performed, so that frame
properties ("this operation performs no writes") are expressible.

Rust `u8`/`u16`/`u32` values are modelled as `Nat` with explicit `% 2^w`
where the code relies on wrap-around; `i8`/`i16`/`i32` values as `Int` with
explicit two's-complement reinterpretation functions. Rust `Duration` is
modelled as a total nanosecond count (`Nat`) saturating at `Duration::MAX`.

The crate modules `lora::airtime`, `lora::types` and `rfm95::registers` are
not part of the given sources; the definitions taken from them are marked
`Modelled from the spec:` and follow the specification's wording.
-/

namespace Rfm95

/-- The error kinds of the driver, flattened: transport/parse failures
(`IoError`), caller argument rejection (`InvalidArgumentError`), hardware RX
symbol timeout (`TimeoutError`), hardware CRC mismatch
(`InvalidMessageError`), and a Rust panic (the `expect` in `complete_rx`). -/
inductive Err where
  | ioError
  | invalidArgument
  | timeoutError
  | invalidMessage
  | panicked
deriving DecidableEq, Repr

/-- The register sub-fields used by the driver (from `rfm95/registers`,
named after the `Reg…` marker types referenced in `driver.rs`). -/
inductive RegName where
  | opModeMode
  | opModeLongRangeMode
  | opModeAccessSharedReg
  | opModeLowFrequencyModeOn
  | fifoTxBaseAddr
  | fifoRxBaseAddr
  | paConfig
  | modemConfig2SpreadingFactor
  | modemConfig1Bw
  | modemConfig1CodingRate
  | modemConfig1ImplicitHeaderModeOn
  | modemConfig2RxPayloadCrcOn
  | modemConfig3LowDataRateOptimize
  | modemConfig2SymbTimeout98
  | symbTimeoutLsb
  | invertIQ
  | syncWord
  | preambleMsb
  | preambleLsb
  | frMsb
  | frMid
  | frLsb
  | payloadLength
  | fifoAddrPtr
  | fifo
  | fifoRxCurrentAddr
  | rxNbBytes
  | irqFlagsTxDone
  | irqFlagsRxDone
  | irqFlagsRxTimeout
  | irqFlagsPayloadCrcError
  | irqFlagsMaskTxDoneMask
  | irqFlagsMaskRxDoneMask
  | irqFlagsMaskRxTimeoutMask
  | irqFlagsMaskPayloadCrcErrorMask
  | pktRssiValue
  | pktSnrValue
  | version
deriving DecidableEq, Repr

/-- The hardware register file. One `Nat` cell per register sub-field, plus
the 256-byte FIFO memory (`fifoMem`) addressed through `fifoAddrPtr`. -/
structure RegState where
  opModeMode : Nat := 0
  opModeLongRangeMode : Nat := 0
  opModeAccessSharedReg : Nat := 0
  opModeLowFrequencyModeOn : Nat := 0
  fifoTxBaseAddr : Nat := 0
  fifoRxBaseAddr : Nat := 0
  paConfig : Nat := 0
  modemConfig2SpreadingFactor : Nat := 0
  modemConfig1Bw : Nat := 0
  modemConfig1CodingRate : Nat := 0
  modemConfig1ImplicitHeaderModeOn : Nat := 0
  modemConfig2RxPayloadCrcOn : Nat := 0
  modemConfig3LowDataRateOptimize : Nat := 0
  modemConfig2SymbTimeout98 : Nat := 0
  symbTimeoutLsb : Nat := 0
  invertIQ : Nat := 0
  syncWord : Nat := 0
  preambleMsb : Nat := 0
  preambleLsb : Nat := 0
  frMsb : Nat := 0
  frMid : Nat := 0
  frLsb : Nat := 0
  payloadLength : Nat := 0
  fifoAddrPtr : Nat := 0
  fifoMem : Nat → Nat := fun _ => 0
  fifoRxCurrentAddr : Nat := 0
  rxNbBytes : Nat := 0
  irqFlagsTxDone : Nat := 0
  irqFlagsRxDone : Nat := 0
  irqFlagsRxTimeout : Nat := 0
  irqFlagsPayloadCrcError : Nat := 0
  irqFlagsMaskTxDoneMask : Nat := 0
  irqFlagsMaskRxDoneMask : Nat := 0
  irqFlagsMaskRxTimeoutMask : Nat := 0
  irqFlagsMaskPayloadCrcErrorMask : Nat := 0
  pktRssiValue : Nat := 0
  pktSnrValue : Nat := 0
  version : Nat := 0

/-- Reading a register sub-field returns its value masked to the sub-field's
hardware width (1, 2, 3, 4 or 8 bits). Reading `RegFifo` returns the FIFO
byte at the current address pointer. -/
def RegState.readVal (s : RegState) : RegName → Nat
  | .opModeMode => s.opModeMode % 8
  | .opModeLongRangeMode => s.opModeLongRangeMode % 2
  | .opModeAccessSharedReg => s.opModeAccessSharedReg % 2
  | .opModeLowFrequencyModeOn => s.opModeLowFrequencyModeOn % 2
  | .fifoTxBaseAddr => s.fifoTxBaseAddr % 256
  | .fifoRxBaseAddr => s.fifoRxBaseAddr % 256
  | .paConfig => s.paConfig % 256
  | .modemConfig2SpreadingFactor => s.modemConfig2SpreadingFactor % 16
  | .modemConfig1Bw => s.modemConfig1Bw % 16
  | .modemConfig1CodingRate => s.modemConfig1CodingRate % 8
  | .modemConfig1ImplicitHeaderModeOn => s.modemConfig1ImplicitHeaderModeOn % 2
  | .modemConfig2RxPayloadCrcOn => s.modemConfig2RxPayloadCrcOn % 2
  | .modemConfig3LowDataRateOptimize => s.modemConfig3LowDataRateOptimize % 2
  | .modemConfig2SymbTimeout98 => s.modemConfig2SymbTimeout98 % 4
  | .symbTimeoutLsb => s.symbTimeoutLsb % 256
  | .invertIQ => s.invertIQ % 256
  | .syncWord => s.syncWord % 256
  | .preambleMsb => s.preambleMsb % 256
  | .preambleLsb => s.preambleLsb % 256
  | .frMsb => s.frMsb % 256
  | .frMid => s.frMid % 256
  | .frLsb => s.frLsb % 256
  | .payloadLength => s.payloadLength % 256
  | .fifoAddrPtr => s.fifoAddrPtr % 256
  | .fifo => s.fifoMem (s.fifoAddrPtr % 256) % 256
  | .fifoRxCurrentAddr => s.fifoRxCurrentAddr % 256
  | .rxNbBytes => s.rxNbBytes % 256
  | .irqFlagsTxDone => s.irqFlagsTxDone % 2
  | .irqFlagsRxDone => s.irqFlagsRxDone % 2
  | .irqFlagsRxTimeout => s.irqFlagsRxTimeout % 2
  | .irqFlagsPayloadCrcError => s.irqFlagsPayloadCrcError % 2
  | .irqFlagsMaskTxDoneMask => s.irqFlagsMaskTxDoneMask % 2
  | .irqFlagsMaskRxDoneMask => s.irqFlagsMaskRxDoneMask % 2
  | .irqFlagsMaskRxTimeoutMask => s.irqFlagsMaskRxTimeoutMask % 2
  | .irqFlagsMaskPayloadCrcErrorMask => s.irqFlagsMaskPayloadCrcErrorMask % 2
  | .pktRssiValue => s.pktRssiValue % 256
  | .pktSnrValue => s.pktSnrValue % 256
  | .version => s.version % 256

/-- Writing a register sub-field stores the written byte (masked to 8 bits,
as the bus transfers bytes). Writing `RegFifo` stores the byte into the FIFO
memory at the current address pointer. -/
def RegState.writeVal (s : RegState) : RegName → Nat → RegState
  | .opModeMode, v => { s with opModeMode := v % 256 }
  | .opModeLongRangeMode, v => { s with opModeLongRangeMode := v % 256 }
  | .opModeAccessSharedReg, v => { s with opModeAccessSharedReg := v % 256 }
  | .opModeLowFrequencyModeOn, v => { s with opModeLowFrequencyModeOn := v % 256 }
  | .fifoTxBaseAddr, v => { s with fifoTxBaseAddr := v % 256 }
  | .fifoRxBaseAddr, v => { s with fifoRxBaseAddr := v % 256 }
  | .paConfig, v => { s with paConfig := v % 256 }
  | .modemConfig2SpreadingFactor, v => { s with modemConfig2SpreadingFactor := v % 256 }
  | .modemConfig1Bw, v => { s with modemConfig1Bw := v % 256 }
  | .modemConfig1CodingRate, v => { s with modemConfig1CodingRate := v % 256 }
  | .modemConfig1ImplicitHeaderModeOn, v => { s with modemConfig1ImplicitHeaderModeOn := v % 256 }
  | .modemConfig2RxPayloadCrcOn, v => { s with modemConfig2RxPayloadCrcOn := v % 256 }
  | .modemConfig3LowDataRateOptimize, v => { s with modemConfig3LowDataRateOptimize := v % 256 }
  | .modemConfig2SymbTimeout98, v => { s with modemConfig2SymbTimeout98 := v % 256 }
  | .symbTimeoutLsb, v => { s with symbTimeoutLsb := v % 256 }
  | .invertIQ, v => { s with invertIQ := v % 256 }
  | .syncWord, v => { s with syncWord := v % 256 }
  | .preambleMsb, v => { s with preambleMsb := v % 256 }
  | .preambleLsb, v => { s with preambleLsb := v % 256 }
  | .frMsb, v => { s with frMsb := v % 256 }
  | .frMid, v => { s with frMid := v % 256 }
  | .frLsb, v => { s with frLsb := v % 256 }
  | .payloadLength, v => { s with payloadLength := v % 256 }
  | .fifoAddrPtr, v => { s with fifoAddrPtr := v % 256 }
  | .fifo, v => { s with fifoMem := fun a => if a = s.fifoAddrPtr % 256 then v % 256 else s.fifoMem a }
  | .fifoRxCurrentAddr, v => { s with fifoRxCurrentAddr := v % 256 }
  | .rxNbBytes, v => { s with rxNbBytes := v % 256 }
  | .irqFlagsTxDone, v => { s with irqFlagsTxDone := v % 256 }
  | .irqFlagsRxDone, v => { s with irqFlagsRxDone := v % 256 }
  | .irqFlagsRxTimeout, v => { s with irqFlagsRxTimeout := v % 256 }
  | .irqFlagsPayloadCrcError, v => { s with irqFlagsPayloadCrcError := v % 256 }
  | .irqFlagsMaskTxDoneMask, v => { s with irqFlagsMaskTxDoneMask := v % 256 }
  | .irqFlagsMaskRxDoneMask, v => { s with irqFlagsMaskRxDoneMask := v % 256 }
  | .irqFlagsMaskRxTimeoutMask, v => { s with irqFlagsMaskRxTimeoutMask := v % 256 }
  | .irqFlagsMaskPayloadCrcErrorMask, v => { s with irqFlagsMaskPayloadCrcErrorMask := v % 256 }
  | .pktRssiValue, v => { s with pktRssiValue := v % 256 }
  | .pktSnrValue, v => { s with pktSnrValue := v % 256 }
  | .version, v => { s with version := v % 256 }

/-- A log of the register writes an operation performed, in order. -/
abbrev WriteLog := List (RegName × Nat)

/-- A driver computation: given the register file, it yields a result or an
error, the updated register file, and the list of writes performed. Writes
already issued before an error stand (the Rust code returns early without
rollback). -/
def M (α : Type) := RegState → Except Err α × RegState × WriteLog

instance : Monad M where
  pure a := fun s => (.ok a, s, [])
  bind x f := fun s =>
    match x s with
    | (.ok a, s1, l1) =>
      match f a s1 with
      | (r, s2, l2) => (r, s2, l1 ++ l2)
    | (.error e, s1, l1) => (.error e, s1, l1)

/-- Aborting the operation with an error (Rust early `return Err(…)`). -/
def M.fail {α : Type} (e : Err) : M α := fun s => (.error e, s, [])

/-- One bus read transaction (`Rfm95Connection::read`): returns the register
value, changes nothing, writes nothing. -/
def readReg (r : RegName) : M Nat := fun s => (.ok (s.readVal r), s, [])

/-- One bus write transaction (`Rfm95Connection::write`): stores the byte and
logs the write. -/
def writeReg (r : RegName) (v : Nat) : M Unit := fun s => (.ok (), s.writeVal r v, [(r, v)])

/-- Reinterpret a byte as a Rust `i8` (two's complement). -/
def i8ofByte (b : Nat) : Int :=
  if b % 256 < 128 then (b % 256 : Nat) else (b % 256 : Nat) - 256

/-- Rust `x as i32` on an unsigned value: keep the low 32 bits, reinterpreted
as two's complement. -/
def asI32 (n : Nat) : Int :=
  if n % 4294967296 < 2147483648 then (n % 4294967296 : Nat) else (n % 4294967296 : Nat) - 4294967296

/-- Rust `i32::try_from` on an unsigned (`u128`) value: succeeds exactly when
the value fits the signed 32-bit range. -/
def i32ofU128 (n : Nat) : Option Int :=
  if n ≤ 2147483647 then some (n : Int) else none

/-- Rust `x as u32` on an `i32` value: the value modulo `2^32`. -/
def asU32 (x : Int) : Nat := (x % 4294967296).toNat

/-- Rust `u8::checked_add`. -/
def checkedAdd8 (a b : Nat) : Option Nat :=
  if a + b ≤ 255 then some (a + b) else none

/-- `Rfm95Driver::FREQUENCY_DIVIDER_MILLIHZ`: one crystal step in milli-hertz. -/
def FREQUENCY_DIVIDER_MILLIHZ : Nat := 61035

/-- `Rfm95Driver::HIGH_FREQUENCY_THRESHOLD` in hertz. -/
def HIGH_FREQUENCY_THRESHOLD : Nat := 652000000

/-- `Rfm95Driver::REG_OPMODE_MODE_TXSINGLE`. -/
def REG_OPMODE_MODE_TXSINGLE : Nat := 3

/-- `Rfm95Driver::REG_OPMODE_MODE_RXSINGLE`. -/
def REG_OPMODE_MODE_RXSINGLE : Nat := 6

/-- `Rfm95Driver::HF_RSSI_OFFSET`. -/
def HF_RSSI_OFFSET : Int := -157

/-- `Rfm95Driver::LF_RSSI_OFFSET`. -/
def LF_RSSI_OFFSET : Int := -164

/-- Modelled from the spec: `RFM95_FIFO_SIZE` (from `rfm95`, not among the
given sources) — the capacity of the chip's shared 256-byte packet buffer. -/
def RFM95_FIFO_SIZE : Nat := 256

/-- Modelled from the spec: `SpreadingFactor::parse` (from `lora::types`, not
among the given sources) — decodes the 4-bit spreading-factor field; the
hardware-supported values are 6 through 12, any other raw pattern fails. -/
def SpreadingFactor.parse (raw : Nat) : Option Nat :=
  if 6 ≤ raw ∧ raw ≤ 12 then some raw else none

/-- Modelled from the spec: `Bandwidth::parse` (from `lora::types`, not among
the given sources) — decodes the 4-bit bandwidth field; the hardware supports
the ten discrete codes 0 through 9, any other raw pattern fails. -/
def Bandwidth.parse (raw : Nat) : Option Nat :=
  if raw ≤ 9 then some raw else none

/-- Modelled from the spec: the channel width in hertz of each bandwidth
code (the chip's discrete bandwidth table, narrowest to widest). -/
def Bandwidth.hz : Nat → Nat
  | 0 => 7800
  | 1 => 10400
  | 2 => 15600
  | 3 => 20800
  | 4 => 31250
  | 5 => 41700
  | 6 => 62500
  | 7 => 125000
  | 8 => 250000
  | 9 => 500000
  | _ => 0

/-- Rust `Duration::MAX` in nanoseconds (`u64::MAX` seconds plus
999 999 999 nanoseconds). A `Duration` is modelled as its total nanosecond
count, which is at most this value. -/
def durationMaxNanos : Nat := 18446744073709551615 * 1000000000 + 999999999

/-- Rust `Duration::as_micros`: whole microseconds (truncating). -/
def Duration.asMicros (nanos : Nat) : Nat := nanos / 1000

/-- Rust `Duration::saturating_mul`: multiply, saturating at `Duration::MAX`. -/
def Duration.saturatingMul (nanos n : Nat) : Nat := min (nanos * n) durationMaxNanos

/-- Modelled from the spec: `airtime::symbol_airtime` (from `lora::airtime`,
not among the given sources) — the duration of one modulation symbol,
`2^SF / BW`, as a `Duration` (nanoseconds). -/
def airtime.symbol_airtime (sf bw : Nat) : Nat :=
  2 ^ sf * 1000000000 / Bandwidth.hz bw

/-- Modelled from the spec: `airtime::needs_ldo` (from `lora::airtime`, not
among the given sources) — low-data-rate optimization is required for
combinations with long symbol duration (symbol airtime above 16 ms). -/
def airtime.needs_ldo (sf bw : Nat) : Bool :=
  16000000 < airtime.symbol_airtime sf bw

/-- Modelled from the spec: `airtime::ceildiv` (from `lora::airtime`, not
among the given sources) — the ceiling of `a / b` on signed 32-bit values
(used with a non-negative numerator and positive denominator). -/
def airtime.ceildiv (a b : Int) : Int := (a + b - 1).tdiv b

/-- `Rfm95Driver::spreading_factor`: read and decode the spreading factor. -/
def spreading_factor : M Nat := do
  let spreading_factor_raw ← readReg .modemConfig2SpreadingFactor
  match SpreadingFactor.parse spreading_factor_raw with
  | some sf => pure sf
  | none => M.fail .ioError

/-- `Rfm95Driver::bandwidth`: read and decode the bandwidth. -/
def bandwidth : M Nat := do
  let bandwidth_raw ← readReg .modemConfig1Bw
  match Bandwidth.parse bandwidth_raw with
  | some bw => pure bw
  | none => M.fail .ioError

/-- `Rfm95Driver::set_spreading_factor`: read the current bandwidth, compute
the LDO requirement for the new pair, then write the spreading factor and
the LDO bit. -/
def set_spreading_factor (sf : Nat) : M Unit := do
  let bw ← bandwidth
  let needsLdo := airtime.needs_ldo sf bw
  writeReg .modemConfig2SpreadingFactor sf
  writeReg .modemConfig3LowDataRateOptimize (if needsLdo then 1 else 0)

/-- `Rfm95Driver::set_bandwidth`: read the current spreading factor, compute
the LDO requirement for the new pair, then write the bandwidth and the LDO
bit. -/
def set_bandwidth (bw : Nat) : M Unit := do
  let sf ← spreading_factor
  let needsLdo := airtime.needs_ldo sf bw
  writeReg .modemConfig1Bw bw
  writeReg .modemConfig3LowDataRateOptimize (if needsLdo then 1 else 0)

/-- Modelled from the spec: `CodingRate::parse` (from `lora::types`, not
among the given sources) — the four coding rates 4/5…4/8 are encoded as raw
values 1 through 4; any other pattern fails. -/
def CodingRate.parse (raw : Nat) : Option Nat :=
  if 1 ≤ raw ∧ raw ≤ 4 then some raw else none

/-- Modelled from the spec: `Polarity::parse` (from `lora::types`, not among
the given sources) — decodes the IQ-polarity register; exactly two encodings
(normal / inverted) are valid. -/
def Polarity.parse (raw : Nat) : Option Nat :=
  if raw ≤ 1 then some raw else none

/-- Modelled from the spec: `HeaderMode::parse` (from `lora::types`, not
among the given sources) — explicit (0) or implicit (1) header mode. -/
def HeaderMode.parse (raw : Nat) : Option Nat :=
  if raw ≤ 1 then some raw else none

/-- Modelled from the spec: `CrcMode::parse` (from `lora::types`, not among
the given sources) — CRC disabled (0) or enabled (1). -/
def CrcMode.parse (raw : Nat) : Option Nat :=
  if raw ≤ 1 then some raw else none

/-- `Rfm95Driver::coding_rate`. -/
def coding_rate : M Nat := do
  let raw ← readReg .modemConfig1CodingRate
  match CodingRate.parse raw with
  | some cr => pure cr
  | none => M.fail .ioError

/-- `Rfm95Driver::polarity`. -/
def polarity : M Nat := do
  let raw ← readReg .invertIQ
  match Polarity.parse raw with
  | some p => pure p
  | none => M.fail .ioError

/-- `Rfm95Driver::header_mode`. -/
def header_mode : M Nat := do
  let raw ← readReg .modemConfig1ImplicitHeaderModeOn
  match HeaderMode.parse raw with
  | some h => pure h
  | none => M.fail .ioError

/-- `Rfm95Driver::crc_mode`. -/
def crc_mode : M Nat := do
  let raw ← readReg .modemConfig2RxPayloadCrcOn
  match CrcMode.parse raw with
  | some c => pure c
  | none => M.fail .ioError

/-- `Rfm95Driver::sync_word` (`SyncWord::new` accepts every byte). -/
def sync_word : M Nat := do
  let raw ← readReg .syncWord
  pure raw

/-- `Rfm95Driver::preamble_len`: read MSB and LSB and combine big-endian. -/
def preamble_len : M Nat := do
  let preamble_len_msb ← readReg .preambleMsb
  let preamble_len_lsb ← readReg .preambleLsb
  pure (preamble_len_msb * 256 + preamble_len_lsb)

/-- The raw→Hz direction of the frequency conversion in
`Rfm95Driver::frequency`: `raw * step_milliHz / 1000`, cast `as u32`. -/
def raw_to_hz (raw : Nat) : Nat :=
  raw * FREQUENCY_DIVIDER_MILLIHZ / 1000 % 4294967296

/-- The Hz→raw direction of the frequency conversion in
`Rfm95Driver::set_frequency`: `Hz * 1000 / step_milliHz` (on `u64`). -/
def hz_to_raw (hz : Nat) : Nat :=
  hz * 1000 / FREQUENCY_DIVIDER_MILLIHZ

/-- `Rfm95Driver::frequency`: read the three frequency bytes, combine
big-endian, and convert to hertz with integer arithmetic. -/
def frequency : M Nat := do
  let frequency_msb ← readReg .frMsb
  let frequency_mid ← readReg .frMid
  let frequency_lsb ← readReg .frLsb
  let frequency_raw := frequency_msb * 65536 + frequency_mid * 256 + frequency_lsb
  pure (raw_to_hz frequency_raw)

/-- `Rfm95Driver::set_frequency`: write the frequency-mode bit (low-frequency
mode is `1`), then convert to the crystal-native raw value and write its
three big-endian bytes. The argument is a `Frequency`, i.e. a `u32` hertz
count. -/
def set_frequency (hz : Nat) : M Unit := do
  let frequency_mode := if hz < HIGH_FREQUENCY_THRESHOLD then 1 else 0
  writeReg .opModeLowFrequencyModeOn frequency_mode
  let raw := hz_to_raw hz
  writeReg .frMsb (raw / 65536 % 256)
  writeReg .frMid (raw / 256 % 256)
  writeReg .frLsb (raw % 256)

/-- The FIFO-fill loop of `Rfm95Driver::start_tx`: for each payload byte, set
the address pointer (the enumeration index, cast `as u8`) and write the byte. -/
def txWriteLoop : Nat → List Nat → M Unit
  | _, [] => pure ()
  | index, b :: rest => do
    writeReg .fifoAddrPtr (index % 256)
    writeReg .fifo b
    txWriteLoop (index + 1) rest

/-- `Rfm95Driver::start_tx`: reject empty or over-long payloads before any
write; otherwise fill the FIFO, set the payload length, unmask and clear the
TX-done interrupt, and enter single-shot TX mode. -/
def start_tx (data : List Nat) : M Unit := do
  if 1 ≤ data.length ∧ data.length ≤ RFM95_FIFO_SIZE then
    txWriteLoop 0 data
    writeReg .payloadLength (data.length % 256)
    writeReg .irqFlagsMaskTxDoneMask 0
    writeReg .irqFlagsTxDone 1
    writeReg .opModeMode REG_OPMODE_MODE_TXSINGLE
  else
    M.fail .invalidArgument

/-- `Rfm95Driver::complete_tx`: poll the TX-done flag; if unset return
`none`, otherwise read back the payload length as the byte count sent. -/
def complete_tx : M (Option Nat) := do
  let txDone ← readReg .irqFlagsTxDone
  if txDone = 1 then
    let written ← readReg .payloadLength
    pure (some written)
  else
    pure none

/-- `Rfm95Driver::rx_timeout_max`: one symbol's airtime for the current
configuration, multiplied by the hardware's maximum symbol count 1023 with
saturation. -/
def rx_timeout_max : M Nat := do
  let sf ← spreading_factor
  let bw ← bandwidth
  let airtime_symbol := airtime.symbol_airtime sf bw
  pure (Duration.saturatingMul airtime_symbol 1023)

/-- `Rfm95Driver::start_rx`: recompute the symbol airtime, convert the
requested timeout to microseconds (rejecting values outside the signed
32-bit range), compute the required symbol count by ceiling division
(rejecting counts of 1024 or more), then configure the timeout registers,
reset the FIFO pointer, unmask and clear the three RX interrupts, and enter
single-shot RX mode. The timeout argument is a `Duration` in nanoseconds. -/
def start_rx (timeout : Nat) : M Unit := do
  let sf ← spreading_factor
  let bw ← bandwidth
  let symbol_airtime := airtime.symbol_airtime sf bw
  let symbol_airtime_micros : Int := asI32 (Duration.asMicros symbol_airtime)
  match i32ofU128 (Duration.asMicros timeout) with
  | none => M.fail .invalidArgument
  | some timeout_micros =>
    let timeout_symbols := asU32 (airtime.ceildiv timeout_micros symbol_airtime_micros)
    if timeout_symbols < 1024 then
      writeReg .modemConfig2SymbTimeout98 (timeout_symbols / 256)
      writeReg .symbTimeoutLsb (timeout_symbols % 256)
      writeReg .fifoAddrPtr 0
      writeReg .irqFlagsMaskRxDoneMask 0
      writeReg .irqFlagsMaskRxTimeoutMask 0
      writeReg .irqFlagsMaskPayloadCrcErrorMask 0
      writeReg .irqFlagsRxDone 1
      writeReg .irqFlagsRxTimeout 1
      writeReg .irqFlagsPayloadCrcError 1
      writeReg .opModeMode REG_OPMODE_MODE_RXSINGLE
    else
      M.fail .invalidArgument

/-- The FIFO-copy loop of `Rfm95Driver::complete_rx`: for the first `toCopy`
slots of the buffer, compute `start.checked_add(index)` (panicking on
overflow, like the `expect` in the source), set the address pointer, and read
one FIFO byte into the slot. Returns the updated buffer (copied prefix plus
untouched remainder). -/
def rxCopyLoop (start : Nat) : Nat → Nat → List Nat → M (List Nat)
  | _, 0, buf => pure buf
  | _, _ + 1, [] => pure []
  | index, toCopy + 1, _ :: rest => do
    match checkedAdd8 start (index % 256) with
    | none => M.fail .panicked
    | some offset => do
      writeReg .fifoAddrPtr offset
      let byte ← readReg .fifo
      let restCopied ← rxCopyLoop start (index + 1) toCopy rest
      pure (byte :: restCopied)

/-- `Rfm95Driver::complete_rx`: check the RX-timeout flag, then the
payload-CRC-error flag, then the RX-done flag; if done, copy
`min(received_count, buffer_capacity)` bytes from the FIFO starting at the
reported start address and return the reported count. Returns the updated
buffer alongside the optional count. -/
def complete_rx (buf : List Nat) : M (List Nat × Option Nat) := do
  let rxTimeout ← readReg .irqFlagsRxTimeout
  if rxTimeout = 0 then
    let crcError ← readReg .irqFlagsPayloadCrcError
    if crcError = 0 then
      let rxDone ← readReg .irqFlagsRxDone
      if rxDone = 1 then
        let start ← readReg .fifoRxCurrentAddr
        let len ← readReg .rxNbBytes
        let toCopy := min len buf.length
        let copied ← rxCopyLoop start 0 toCopy buf
        pure (copied, some len)
      else
        pure (buf, none)
    else
      M.fail .invalidMessage
  else
    M.fail .timeoutError

/-- `Rfm95Driver::get_packet_rssi`: the raw RSSI byte plus the RSSI offset of
the current frequency band. -/
def get_packet_rssi : M Int := do
  let rssi_raw ← readReg .pktRssiValue
  let freq ← frequency
  let rssi_offset := if freq < HIGH_FREQUENCY_THRESHOLD then LF_RSSI_OFFSET else HF_RSSI_OFFSET
  pure ((rssi_raw : Int) + rssi_offset)

/-- `Rfm95Driver::get_packet_snr`: the SNR byte reinterpreted as two's
complement, divided by 4 truncating toward zero. -/
def get_packet_snr : M Int := do
  let raw ← readReg .pktSnrValue
  pure ((i8ofByte raw).tdiv 4)

/-- `Rfm95Driver::get_packet_strength`: RSSI plus the minimum of SNR and 0. -/
def get_packet_strength : M Int := do
  let snr ← get_packet_snr
  let rssi ← get_packet_rssi
  pure (rssi + min snr 0)

/-- The register file produced by the TX FIFO-fill loop: for each payload
byte, the address pointer is set and the byte stored, starting at `index`. -/
def txModel (index : Nat) (data : List Nat) (st : RegState) : RegState :=
  match data with
  | [] => st
  | b :: rest => txModel (index + 1) rest ((st.writeVal .fifoAddrPtr (index % 256)).writeVal .fifo b)

/-- The write log produced by the TX FIFO-fill loop. -/
def txLog (index : Nat) (data : List Nat) : WriteLog :=
  match data with
  | [] => []
  | b :: rest => (.fifoAddrPtr, index % 256) :: (.fifo, b) :: txLog (index + 1) rest

/-- The `t` FIFO bytes starting at address `base` (what a successful RX copy
places into the buffer). -/
def fifoSlice (st : RegState) (base t : Nat) : List Nat :=
  (List.range' base t).map (fun a => st.fifoMem a % 256)

/-- The write log of a successful RX copy of `t` bytes starting at `base`:
one address-pointer write per byte. -/
def rxLog (base t : Nat) : WriteLog :=
  (List.range' base t).map (fun a => (.fifoAddrPtr, a))

/-- The register file after a successful RX copy of `t` bytes starting at
`base`: only the address pointer has moved (to the last offset used). -/
def rxModelState (base t : Nat) (st : RegState) : RegState :=
  if t = 0 then st else { st with fifoAddrPtr := base + (t - 1) }

set_option maxRecDepth 4000

theorem run_pure {α : Type} (a : α) (s : RegState) : (pure a : M α) s = (.ok a, s, []) := rfl

theorem run_bind {α β : Type} (x : M α) (f : α → M β) (s : RegState) :
    (x >>= f) s = (match x s with
      | (.ok a, s1, l1) =>
        (match f a s1 with
         | (r, s2, l2) => (r, s2, l1 ++ l2))
      | (.error e, s1, l1) => (.error e, s1, l1)) := rfl

theorem run_fail {α : Type} (e : Err) (s : RegState) : (M.fail e : M α) s = (.error e, s, []) := rfl

theorem run_readReg (r : RegName) (s : RegState) : readReg r s = (.ok (s.readVal r), s, []) := rfl

theorem run_writeReg (r : RegName) (v : Nat) (s : RegState) :
    writeReg r v s = (.ok (), s.writeVal r v, [(r, v)]) := rfl

theorem txWriteLoop_eq (data : List Nat) : ∀ (index : Nat) (st : RegState),
    txWriteLoop index data st = (.ok (), txModel index data st, txLog index data) := by
  induction data with
  | nil => intro index st; rfl
  | cons b rest ih =>
    intro index st
    simp [txWriteLoop, run_bind, run_writeReg, ih, txModel, txLog]

theorem txModel_fifoMem (data : List Nat) : ∀ (index : Nat) (st : RegState),
    index + data.length ≤ 256 → ∀ a : Nat,
    (txModel index data st).fifoMem a =
      if index ≤ a ∧ a < index + data.length then data.getD (a - index) 0 % 256
      else st.fifoMem a := by
  induction data with
  | nil =>
    intro index st _ a
    simp only [txModel, List.length_nil, Nat.add_zero]
    rw [if_neg (by omega)]
  | cons b rest ih =>
    intro index st hle a
    have hidx : index % 256 = index := Nat.mod_eq_of_lt (by simp at hle; omega)
    rw [txModel, ih _ _ (by simp at hle ⊢; omega)]
    by_cases h1 : index + 1 ≤ a ∧ a < index + 1 + rest.length
    · rw [if_pos h1, if_pos (by simp; omega)]
      have : a - index = (a - (index + 1)) + 1 := by omega
      rw [this, List.getD_cons_succ]
    · rw [if_neg h1]
      simp only [RegState.writeVal, hidx]
      by_cases h2 : a = index
      · subst h2
        simp [List.getD_cons_zero]
      · simp only [if_neg h2]
        rw [if_neg (by simp; omega)]

theorem rxCopyLoop_ok (start : Nat) : ∀ (t index : Nat) (buf : List Nat) (st : RegState),
    t ≤ buf.length → start + index + t ≤ 256 →
    rxCopyLoop start index t buf st =
      (.ok (fifoSlice st (start + index) t ++ buf.drop t),
       rxModelState (start + index) t st,
       rxLog (start + index) t) := by
  intro t
  induction t with
  | zero =>
    intro index buf st _ _
    simp [rxCopyLoop, fifoSlice, rxLog, rxModelState, run_pure]
  | succ t ih =>
    intro index buf st hlen hbound
    match buf with
    | [] => simp at hlen
    | b :: rest =>
      have hidx : index % 256 = index := Nat.mod_eq_of_lt (by omega)
      have hoff : start + index ≤ 255 := by omega
      have hoffm : (start + index) % 256 = start + index := Nat.mod_eq_of_lt (by omega)
      rw [rxCopyLoop]
      simp only [hidx, checkedAdd8, if_pos hoff, run_bind, run_writeReg, run_readReg,
        run_pure, RegState.writeVal, RegState.readVal, hoffm]
      rw [ih (index + 1) rest _ (by simpa using hlen) (by omega)]
      simp only [run_pure, hoffm]
      by_cases ht : t = 0
      · subst ht
        simp [fifoSlice, rxLog, rxModelState, List.range'_succ]
      · have h1 : start + (index + 1) = start + index + 1 := by omega
        have h2 : start + index + 1 + (t - 1) = start + index + t := by omega
        simp [fifoSlice, rxLog, rxModelState, ht, h1, h2, List.range'_succ]

theorem rxCopyLoop_panics (start : Nat) : ∀ (t index : Nat) (buf : List Nat) (st : RegState),
    t ≤ buf.length → index + t ≤ 256 → 1 ≤ t → 256 < start + index + t →
    (rxCopyLoop start index t buf st).1 = .error .panicked := by
  intro t
  induction t with
  | zero => intro index buf st _ _ h1 _; omega
  | succ t ih =>
    intro index buf st hlen hidx256 _ hover
    match buf with
    | [] => simp at hlen
    | b :: rest =>
      have hidx : index % 256 = index := Nat.mod_eq_of_lt (by omega)
      rw [rxCopyLoop]
      by_cases hok : start + index ≤ 255
      · have ht1 : 1 ≤ t := by omega
        simp only [hidx, checkedAdd8, if_pos hok, run_bind, run_writeReg, run_readReg,
          run_pure, RegState.writeVal, RegState.readVal]
        rcases hres : rxCopyLoop start (index + 1) t rest
            ({ st with fifoAddrPtr := (start + index) % 256 }) with ⟨res, s2, l2⟩
        have hre : res = .error .panicked := by
          have := ih (index + 1) rest { st with fifoAddrPtr := (start + index) % 256 }
            (by simpa using hlen) (by omega) ht1 (by omega)
          rw [hres] at this
          exact this
        subst hre
        simp [hres]
      · simp [hidx, checkedAdd8, if_neg hok, run_bind, M.fail]

theorem sa_micros_bounds (sf bw : Nat) (h6 : 6 ≤ sf) (h12 : sf ≤ 12) (hb : bw ≤ 9) :
    1 ≤ Duration.asMicros (airtime.symbol_airtime sf bw)
    ∧ Duration.asMicros (airtime.symbol_airtime sf bw) ≤ 525128 := by
  interval_cases sf <;> interval_cases bw <;> decide

theorem parse_sf_range (raw sf : Nat) (h : SpreadingFactor.parse raw = some sf) :
    6 ≤ sf ∧ sf ≤ 12 := by
  unfold SpreadingFactor.parse at h
  split at h
  · cases h; omega
  · cases h

theorem parse_bw_range (raw bw : Nat) (h : Bandwidth.parse raw = some bw) : bw ≤ 9 := by
  unfold Bandwidth.parse at h
  split at h
  · cases h; omega
  · cases h

/-- C1: `complete_rx` checks the interrupt flags in fixed priority order for
every register-file state: a set RX-timeout flag yields the timeout error
regardless of the other flags (the state and witness below even have RX-done
set), otherwise a set payload-CRC-error flag yields the malformed-message
error, and with both error flags clear an unset RX-done flag yields the
non-error "not yet complete" result `none`. In all three cases no register
is written. -/
theorem complete_rx_flag_priority (st : RegState) (buf : List Nat) :
    (st.irqFlagsRxTimeout % 2 = 1 →
      complete_rx buf st = (.error .timeoutError, st, []))
    ∧ (st.irqFlagsRxTimeout % 2 = 0 → st.irqFlagsPayloadCrcError % 2 = 1 →
      complete_rx buf st = (.error .invalidMessage, st, []))
    ∧ (st.irqFlagsRxTimeout % 2 = 0 → st.irqFlagsPayloadCrcError % 2 = 0 →
      st.irqFlagsRxDone % 2 = 0 →
      complete_rx buf st = (.ok (buf, none), st, [])) := by
  refine ⟨fun h => ?_, fun h h2 => ?_, fun h h2 h3 => ?_⟩
  · simp [complete_rx, run_bind, run_readReg, run_fail, run_pure, RegState.readVal, h]
  · simp [complete_rx, run_bind, run_readReg, run_fail, run_pure, RegState.readVal, h, h2]
  · simp [complete_rx, run_bind, run_readReg, run_fail, run_pure, RegState.readVal, h, h2, h3]

/-- Witness for C1: with both the RX-timeout and the RX-done flag set,
`complete_rx` fails with the timeout error. -/
theorem complete_rx_flag_priority_witness :
    complete_rx [0] ({ irqFlagsRxTimeout := 1, irqFlagsRxDone := 1 } : RegState)
      = (.error .timeoutError, { irqFlagsRxTimeout := 1, irqFlagsRxDone := 1 }, []) :=
  (complete_rx_flag_priority { irqFlagsRxTimeout := 1, irqFlagsRxDone := 1 } [0]).1 rfl

/-- Counterexample for C2: the claim says the copy uses wrap-safe address
arithmetic (offsets modulo the FIFO's address width) and never fails or
panics near the top of the range. In fact the code uses
`start.checked_add(index).expect(…)`: with reported start address `255` and
2 received bytes, the second offset overflows `u8` and the code panics
instead of wrapping to address 0. -/
theorem complete_rx_wrap_counterexample :
    (complete_rx [0, 0]
        ({ irqFlagsRxDone := 1, fifoRxCurrentAddr := 255, rxNbBytes := 2 } : RegState)).1
      = .error .panicked := rfl

/-- C2 (amended): when `complete_rx` finds RX-done set and no error flag, it
copies `min(received_count, buffer_capacity)` bytes from the FIFO starting
at the reported start address and returns the reported count (which may
exceed the buffer capacity) — but the address arithmetic is checked, not
wrapping: it copies exactly when the address range stays within the 8-bit
space, and panics when `start + min(received_count, capacity)` would exceed
address 255. -/
theorem complete_rx_copy_behavior (st : RegState) (buf : List Nat)
    (h1 : st.irqFlagsRxTimeout % 2 = 0) (h2 : st.irqFlagsPayloadCrcError % 2 = 0)
    (h3 : st.irqFlagsRxDone % 2 = 1) :
    (st.fifoRxCurrentAddr % 256 + min (st.rxNbBytes % 256) buf.length ≤ 256 →
      (complete_rx buf st).1 = .ok
        (fifoSlice st (st.fifoRxCurrentAddr % 256) (min (st.rxNbBytes % 256) buf.length)
           ++ buf.drop (min (st.rxNbBytes % 256) buf.length),
         some (st.rxNbBytes % 256)))
    ∧ (256 < st.fifoRxCurrentAddr % 256 + min (st.rxNbBytes % 256) buf.length →
      (complete_rx buf st).1 = .error .panicked) := by
  constructor
  · intro hfit
    simp only [complete_rx, run_bind, run_readReg, run_pure, RegState.readVal, h1, h2, h3,
      reduceIte]
    rw [rxCopyLoop_ok (st.fifoRxCurrentAddr % 256) (min (st.rxNbBytes % 256) buf.length) 0 buf st
      (by omega) (by omega)]
    simp
  · intro hfit
    simp only [complete_rx, run_bind, run_readReg, run_pure, RegState.readVal, h1, h2, h3,
      reduceIte]
    rcases hres : rxCopyLoop (st.fifoRxCurrentAddr % 256) 0 (min (st.rxNbBytes % 256) buf.length)
        buf st with ⟨res, s2, l2⟩
    have hre : res = .error .panicked := by
      have := rxCopyLoop_panics (st.fifoRxCurrentAddr % 256)
        (min (st.rxNbBytes % 256) buf.length) 0 buf st
        (by omega) (by omega) (by omega) (by omega)
      rw [hres] at this
      exact this
    subst hre
    simp [hres]

/-- Witness for the amended C2: start address 10, 2 received bytes, FIFO
holding its own address at each cell — both bytes are copied and the
reported count returned. -/
theorem complete_rx_copy_behavior_witness :
    (complete_rx [0, 0]
        ({ irqFlagsRxDone := 1, fifoRxCurrentAddr := 10, rxNbBytes := 2,
           fifoMem := fun a => a } : RegState)).1
      = .ok ([10, 11], some 2) := by
  have h := (complete_rx_copy_behavior
    { irqFlagsRxDone := 1, fifoRxCurrentAddr := 10, rxNbBytes := 2, fifoMem := fun a => a }
    [0, 0] rfl rfl rfl).1 (by norm_num)
  exact h.trans (by rfl)

/-- C3: after a successful `set_spreading_factor sf`, the LDO register bit
equals the LDO requirement computed from `sf` and the bandwidth currently in
hardware; symmetrically, after `set_bandwidth bw` it equals the requirement
computed from the spreading factor currently in hardware and `bw`. In
particular spreading factor 12 with bandwidth 125 kHz (code 7) writes LDO
bit 1, and spreading factor 7 with bandwidth 500 kHz (code 9) writes LDO
bit 0 — through either setter. -/
theorem ldo_coupling (st : RegState) (sf bw sfCur bwCur : Nat)
    (hbw : Bandwidth.parse (st.modemConfig1Bw % 16) = some bwCur)
    (hsf : SpreadingFactor.parse (st.modemConfig2SpreadingFactor % 16) = some sfCur) :
    ((set_spreading_factor sf st).1 = .ok ()
      ∧ ((set_spreading_factor sf st).2.1).modemConfig3LowDataRateOptimize
          = (if airtime.needs_ldo sf bwCur then 1 else 0))
    ∧ ((set_bandwidth bw st).1 = .ok ()
      ∧ ((set_bandwidth bw st).2.1).modemConfig3LowDataRateOptimize
          = (if airtime.needs_ldo sfCur bw then 1 else 0))
    ∧ ((set_spreading_factor 12 ({ modemConfig1Bw := 7 } : RegState)).2.1).modemConfig3LowDataRateOptimize = 1
    ∧ ((set_spreading_factor 7 ({ modemConfig1Bw := 9 } : RegState)).2.1).modemConfig3LowDataRateOptimize = 0
    ∧ ((set_bandwidth 7 ({ modemConfig2SpreadingFactor := 12 } : RegState)).2.1).modemConfig3LowDataRateOptimize = 1
    ∧ ((set_bandwidth 9 ({ modemConfig2SpreadingFactor := 7 } : RegState)).2.1).modemConfig3LowDataRateOptimize = 0 := by
  refine ⟨⟨?_, ?_⟩, ⟨?_, ?_⟩, by rfl, by rfl, by rfl, by rfl⟩ <;>
    simp [set_spreading_factor, set_bandwidth, bandwidth, spreading_factor, run_bind,
      run_readReg, run_writeReg, run_pure, RegState.readVal, RegState.writeVal, hbw, hsf] <;>
    split <;> omega

/-- Witness for C3: with bandwidth code 7 (125 kHz) in hardware, setting
spreading factor 12 writes the LDO bit as required by the (12, 125 kHz)
pair. -/
theorem ldo_coupling_witness :
    ((set_spreading_factor 12
        ({ modemConfig1Bw := 7, modemConfig2SpreadingFactor := 7 } : RegState)).2.1).modemConfig3LowDataRateOptimize
      = (if airtime.needs_ldo 12 7 then 1 else 0) :=
  (ldo_coupling { modemConfig1Bw := 7, modemConfig2SpreadingFactor := 7 } 12 9 7 7 rfl rfl).1.2

/-- C4: `start_rx` fails with an argument error whenever the timeout in
microseconds exceeds the signed 32-bit range, and whenever the required
symbol count — the ceiling of timeout-microseconds over symbol-microseconds
— is at least 1024; in both rejected cases it performs no register writes
and leaves every register unchanged (only the two configuration reads
precede the validation). -/
theorem start_rx_rejection (st : RegState) (timeout : Nat) (sf bw : Nat)
    (hsf : SpreadingFactor.parse (st.modemConfig2SpreadingFactor % 16) = some sf)
    (hbw : Bandwidth.parse (st.modemConfig1Bw % 16) = some bw) :
    (2147483647 < Duration.asMicros timeout →
      start_rx timeout st = (.error .invalidArgument, st, []))
    ∧ (Duration.asMicros timeout ≤ 2147483647 →
       1024 ≤ (Duration.asMicros timeout + Duration.asMicros (airtime.symbol_airtime sf bw) - 1)
               / Duration.asMicros (airtime.symbol_airtime sf bw) →
      start_rx timeout st = (.error .invalidArgument, st, [])) := by
  obtain ⟨hsf6, hsf12⟩ := parse_sf_range _ _ hsf
  have hbw9 := parse_bw_range _ _ hbw
  obtain ⟨hsa1, hsa2⟩ := sa_micros_bounds sf bw hsf6 hsf12 hbw9
  constructor
  · intro hbig
    simp only [start_rx, spreading_factor, bandwidth, run_bind, run_readReg, run_pure, run_fail,
      RegState.readVal, hsf, hbw, i32ofU128,
      if_neg (by omega : ¬ Duration.asMicros timeout ≤ 2147483647)]
    simp [run_fail]
  · intro hfit hsym
    simp only [start_rx, spreading_factor, bandwidth, run_bind, run_readReg, run_pure, run_fail,
      RegState.readVal, hsf, hbw, i32ofU128, if_pos hfit]
    have hsymb : asU32 (airtime.ceildiv ((Duration.asMicros timeout : Nat) : Int)
          (asI32 (Duration.asMicros (airtime.symbol_airtime sf bw))))
        = (Duration.asMicros timeout + Duration.asMicros (airtime.symbol_airtime sf bw) - 1)
            / Duration.asMicros (airtime.symbol_airtime sf bw) := by
      set a := Duration.asMicros timeout with ha
      set b := Duration.asMicros (airtime.symbol_airtime sf bw) with hbv
      unfold asI32 airtime.ceildiv
      rw [if_pos (by omega : b % 4294967296 < 2147483648)]
      have hbm : (b : Nat) % 4294967296 = b := Nat.mod_eq_of_lt (by omega)
      rw [hbm]
      have h1 : ((a : Int) + (b : Int) - 1) = ((a + b - 1 : Nat) : Int) := by omega
      rw [h1]
      have h2 : ((a + b - 1 : Nat) : Int).tdiv ((b : Nat) : Int)
          = (((a + b - 1) / b : Nat) : Int) := rfl
      rw [h2]
      have hcb : (a + b - 1) / b ≤ a + b - 1 := Nat.div_le_self _ _
      unfold asU32
      omega
    rw [hsymb]
    rw [if_neg (by omega)]
    simp [run_fail]

/-- Witness for C4: a 3 000 000 000 000 ns (50-minute) timeout has a
microsecond value above `i32::MAX` and is rejected without any register
write. -/
theorem start_rx_rejection_witness :
    start_rx 3000000000000 ({ modemConfig2SpreadingFactor := 7, modemConfig1Bw := 7 } : RegState)
      = (.error .invalidArgument, { modemConfig2SpreadingFactor := 7, modemConfig1Bw := 7 }, []) :=
  (start_rx_rejection { modemConfig2SpreadingFactor := 7, modemConfig1Bw := 7 }
    3000000000000 7 7 rfl rfl).1 (by norm_num [Duration.asMicros])

/-- C5: `start_tx` fails with an argument error on payloads of length 0 or
above the FIFO capacity, performing zero register writes and leaving the
registers unchanged; for lengths in range it succeeds, writes the payload
bytes into the FIFO, and its final register write switches the operating
mode to single-shot TX. -/
theorem start_tx_length_validation (data : List Nat) (st : RegState) :
    ((data.length = 0 ∨ RFM95_FIFO_SIZE < data.length) →
        start_tx data st = (.error .invalidArgument, st, []))
    ∧ (1 ≤ data.length → data.length ≤ RFM95_FIFO_SIZE →
        (start_tx data st).1 = .ok ()
        ∧ (∀ a : Nat, a < data.length →
            ((start_tx data st).2.1).fifoMem a = data.getD a 0 % 256)
        ∧ (start_tx data st).2.2 = txLog 0 data ++
            [(.payloadLength, data.length % 256), (.irqFlagsMaskTxDoneMask, 0),
             (.irqFlagsTxDone, 1), (.opModeMode, REG_OPMODE_MODE_TXSINGLE)]) := by
  constructor
  · intro h
    rw [start_tx]
    rw [if_neg (by simp only [RFM95_FIFO_SIZE] at h ⊢; omega)]
    rfl
  · intro h1 h2
    rw [start_tx, if_pos ⟨h1, h2⟩]
    refine ⟨?_, ?_, ?_⟩
    · simp [run_bind, run_writeReg, txWriteLoop_eq]
    · intro a ha
      simp only [run_bind, run_writeReg, txWriteLoop_eq, RegState.writeVal]
      rw [txModel_fifoMem data 0 st (by simpa [RFM95_FIFO_SIZE] using h2) a]
      rw [if_pos (by omega)]
      simp
    · simp [run_bind, run_writeReg, txWriteLoop_eq]

/-- Witness for C5: the empty payload is rejected with an argument error and
an empty write log. -/
theorem start_tx_length_validation_witness :
    start_tx [] ({} : RegState) = (.error .invalidArgument, {}, []) :=
  (start_tx_length_validation [] {}).1 (Or.inl rfl)

/-- Counterexample for C6: the claim bounds the round-trip error by one
crystal step (~61 Hz) and gives the window [868 099 987, 868 100 048] for
868.1 MHz. In fact setting 868 001 440 Hz reads back 868 001 378 Hz — 62 Hz
below, more than one 61.035 milli-step — and setting 868 100 000 Hz reads
back 868 099 950 Hz, below the window's lower end 868 099 987. -/
theorem frequency_roundtrip_counterexample :
    (frequency ((set_frequency 868001440 ({} : RegState)).2.1)).1 = .ok 868001378
    ∧ 868001440 - 868001378 = 62
    ∧ (frequency ((set_frequency 868100000 ({} : RegState)).2.1)).1 = .ok 868099950
    ∧ 868099950 < 868099987 := by
  exact ⟨by rfl, by norm_num, by rfl, by norm_num⟩

/-- C6 (amended): for every valid frequency (one whose raw value fits the
24-bit register), reading back after `set_frequency` yields
`raw_to_hz (hz_to_raw f)`, which never exceeds `f` and lies at most 62 Hz
below it (one 61.035 Hz crystal step plus up to 1 Hz from the second integer
truncation); e.g. 868 100 000 Hz reads back as 868 099 950 Hz. -/
theorem frequency_roundtrip_bound (hz : Nat) (st : RegState) (hv : hz ≤ 1023997378) :
    (frequency ((set_frequency hz st).2.1)).1 = .ok (raw_to_hz (hz_to_raw hz))
    ∧ raw_to_hz (hz_to_raw hz) ≤ hz
    ∧ hz ≤ raw_to_hz (hz_to_raw hz) + 62 := by
  refine ⟨?_, ?_⟩
  · have h2 : (frequency ((set_frequency hz st).2.1)).1
        = .ok (raw_to_hz (hz_to_raw hz / 65536 % 256 % 256 % 256 * 65536
            + hz_to_raw hz / 256 % 256 % 256 % 256 * 256 + hz_to_raw hz % 256 % 256 % 256)) := rfl
    rw [h2]
    have hraw : hz_to_raw hz ≤ 16777215 := by
      unfold hz_to_raw FREQUENCY_DIVIDER_MILLIHZ; omega
    have hx : hz_to_raw hz / 65536 % 256 % 256 % 256 * 65536
        + hz_to_raw hz / 256 % 256 % 256 % 256 * 256 + hz_to_raw hz % 256 % 256 % 256
        = hz_to_raw hz := by omega
    rw [hx]
  · unfold raw_to_hz hz_to_raw FREQUENCY_DIVIDER_MILLIHZ
    have hc : hz * 1000 / 61035 * 61035 / 1000 < 4294967296 := by omega
    rw [Nat.mod_eq_of_lt hc]
    constructor <;> omega

/-- Witness for the amended C6: 868.1 MHz round-trips to within 62 Hz below
the requested value. -/
theorem frequency_roundtrip_bound_witness :
    (frequency ((set_frequency 868100000 ({} : RegState)).2.1)).1
        = .ok (raw_to_hz (hz_to_raw 868100000))
    ∧ raw_to_hz (hz_to_raw 868100000) ≤ 868100000
    ∧ 868100000 ≤ raw_to_hz (hz_to_raw 868100000) + 62 :=
  frequency_roundtrip_bound 868100000 {} (by norm_num)

/-- C7: `set_frequency` writes the low-frequency-mode bit first, as 1
exactly when the frequency is below 652 000 000 Hz and as 0 otherwise; the
boundary value 652 000 000 Hz itself selects high-frequency mode (bit 0). -/
theorem set_frequency_mode_bit (hz : Nat) (st : RegState) :
    ((set_frequency hz st).2.1).opModeLowFrequencyModeOn = (if hz < 652000000 then 1 else 0)
    ∧ ((set_frequency hz st).2.2).head? =
        some (.opModeLowFrequencyModeOn, if hz < 652000000 then 1 else 0)
    ∧ ((set_frequency 652000000 ({} : RegState)).2.1).opModeLowFrequencyModeOn = 0 := by
  refine ⟨?_, ?_, by rfl⟩
  · simp [set_frequency, run_bind, run_writeReg, RegState.writeVal, HIGH_FREQUENCY_THRESHOLD]
    split <;> simp [Nat.mod_eq_of_lt]
  · simp [set_frequency, run_bind, run_writeReg, RegState.writeVal, HIGH_FREQUENCY_THRESHOLD]

/-- C8: `rx_timeout_max` returns the single-symbol airtime of the currently
configured spreading factor and bandwidth multiplied by 1023 with saturation,
performing no writes; for spreading factor 7 and bandwidth 125 kHz (code 7)
it equals `1023 × symbol_airtime(7, 125 kHz)` with
`symbol_airtime = 2^SF / BW`. -/
theorem rx_timeout_max_formula (st : RegState) (sf bw : Nat)
    (hsf : SpreadingFactor.parse (st.modemConfig2SpreadingFactor % 16) = some sf)
    (hbw : Bandwidth.parse (st.modemConfig1Bw % 16) = some bw) :
    rx_timeout_max st = (.ok (Duration.saturatingMul (airtime.symbol_airtime sf bw) 1023), st, [])
    ∧ rx_timeout_max ({ modemConfig2SpreadingFactor := 7, modemConfig1Bw := 7 } : RegState)
        = (.ok 1047552000, { modemConfig2SpreadingFactor := 7, modemConfig1Bw := 7 }, [])
    ∧ 1047552000 = 1023 * (2 ^ 7 * 1000000000 / 125000) := by
  refine ⟨?_, by rfl, by norm_num⟩
  simp [rx_timeout_max, spreading_factor, bandwidth, run_bind, run_readReg, run_pure,
    RegState.readVal, hsf, hbw]

/-- Witness for C8: with spreading factor 7 and bandwidth code 7 in the
registers, the maximum timeout is 1023 symbol airtimes. -/
theorem rx_timeout_max_formula_witness :
    rx_timeout_max ({ modemConfig2SpreadingFactor := 7, modemConfig1Bw := 7 } : RegState)
      = (.ok (Duration.saturatingMul (airtime.symbol_airtime 7 7) 1023),
         { modemConfig2SpreadingFactor := 7, modemConfig1Bw := 7 }, []) :=
  (rx_timeout_max_formula { modemConfig2SpreadingFactor := 7, modemConfig1Bw := 7 }
    7 7 rfl rfl).1

/-- C9: `get_packet_strength` returns `get_packet_rssi` plus the minimum of
`get_packet_snr` and 0, where the SNR is the two's-complement SNR byte
divided by 4 truncating toward zero; RSSI −80 dBm with SNR −6 dB gives −86,
and RSSI −80 dBm with SNR +3 dB gives −80. -/
theorem packet_strength_formula (st : RegState) (r s : Int)
    (hr : (get_packet_rssi st).1 = .ok r) (hs : (get_packet_snr st).1 = .ok s) :
    (get_packet_strength st).1 = .ok (r + min s 0)
    ∧ s = (i8ofByte (st.pktSnrValue % 256)).tdiv 4
    ∧ (get_packet_strength ({ pktRssiValue := 84, pktSnrValue := 232 } : RegState)).1 = .ok (-86)
    ∧ (get_packet_strength ({ pktRssiValue := 84, pktSnrValue := 12 } : RegState)).1 = .ok (-80) := by
  refine ⟨?_, ?_, by rfl, by rfl⟩
  · have hr2 : r = ((st.pktRssiValue % 256 : Nat) : Int)
        + (if raw_to_hz (st.frMsb % 256 * 65536 + st.frMid % 256 * 256 + st.frLsb % 256)
              < HIGH_FREQUENCY_THRESHOLD then LF_RSSI_OFFSET else HF_RSSI_OFFSET) := by
      have : (get_packet_rssi st).1 = .ok (((st.pktRssiValue % 256 : Nat) : Int)
          + (if raw_to_hz (st.frMsb % 256 * 65536 + st.frMid % 256 * 256 + st.frLsb % 256)
                < HIGH_FREQUENCY_THRESHOLD then LF_RSSI_OFFSET else HF_RSSI_OFFSET)) := rfl
      rw [this] at hr
      exact (Except.ok.inj hr).symm
    have hs2 : s = (i8ofByte (st.pktSnrValue % 256)).tdiv 4 := by
      have : (get_packet_snr st).1 = .ok ((i8ofByte (st.pktSnrValue % 256)).tdiv 4) := rfl
      rw [this] at hs
      exact (Except.ok.inj hs).symm
    subst hr2 hs2
    rfl
  · have : (get_packet_snr st).1 = .ok ((i8ofByte (st.pktSnrValue % 256)).tdiv 4) := rfl
    rw [this] at hs
    exact (Except.ok.inj hs).symm

/-- Witness for C9: with RSSI byte 84 in the low-frequency band (offset −164)
and SNR byte 232 (−24, i.e. −6 dB after division by 4), the strength is
−86 dBm. -/
theorem packet_strength_formula_witness :
    (get_packet_strength ({ pktRssiValue := 84, pktSnrValue := 232 } : RegState)).1
      = .ok (-80 + min (-6 : Int) 0) :=
  (packet_strength_formula ({ pktRssiValue := 84, pktSnrValue := 232 } : RegState)
    (-80) (-6) (by rfl) (by rfl)).1

/-- C10: every parameter getter and every signal-quality readout performs
only register reads: each leaves the register file (including the FIFO
memory) unchanged and produces an empty write log, on every register-file
state. -/
theorem getters_perform_no_writes (st : RegState) :
    (spreading_factor st).2 = (st, [])
    ∧ (bandwidth st).2 = (st, [])
    ∧ (coding_rate st).2 = (st, [])
    ∧ (polarity st).2 = (st, [])
    ∧ (header_mode st).2 = (st, [])
    ∧ (crc_mode st).2 = (st, [])
    ∧ (sync_word st).2 = (st, [])
    ∧ (preamble_len st).2 = (st, [])
    ∧ (frequency st).2 = (st, [])
    ∧ (get_packet_rssi st).2 = (st, [])
    ∧ (get_packet_snr st).2 = (st, [])
    ∧ (get_packet_strength st).2 = (st, []) := by
  refine ⟨?_, ?_, ?_, ?_, ?_, ?_, rfl, rfl, rfl, rfl, rfl, rfl⟩
  · simp only [spreading_factor, run_bind, run_readReg, SpreadingFactor.parse]
    split <;> rfl
  · simp only [bandwidth, run_bind, run_readReg, Bandwidth.parse]
    split <;> rfl
  · simp only [coding_rate, run_bind, run_readReg, CodingRate.parse]
    split <;> rfl
  · simp only [polarity, run_bind, run_readReg, Polarity.parse]
    split <;> rfl
  · simp only [header_mode, run_bind, run_readReg, HeaderMode.parse]
    split <;> rfl
  · simp only [crc_mode, run_bind, run_readReg, CrcMode.parse]
    split <;> rfl

end Rfm95
